import Mathlib

/-!
Verification development for the midm_LLM_Backend orchestration core.

The definitions below are a shallow embedding of the Python sources:
  src/config.py                    (settings)
  src/models/database.py           (sqlite schema and connection handling)
  src/services/session_service.py  (SessionService)
  src/services/chat_service.py     (ChatService)
  src/services/llm_client.py       (LLMClient)
  src/services/vector_service.py   (VectorService.search_similar)
  src/services/rag_service.py      (RAGService.prepare_context)

Modelling conventions:
  - uuid4 identifiers are abstracted as a per-store counter `next_uuid`;
    datetime.now() is abstracted as a logical clock `now` that advances by
    one at each INSERT, so created_at values of inserted rows are strictly
    increasing in insertion order (Store.WF states this and clock bounds).
  - SQLite INSERT appends a row; SELECT ... ORDER BY created_at DESC is
    modelled as list reversal, which agrees with the created_at order for
    every well-formed store (Store.WF).
  - The sqlite connection opened by DatabaseManager.connect never issues
    PRAGMA foreign_keys=ON, so the FOREIGN KEY clauses declared in
    create_tables are NOT enforced by sqlite: an INSERT into messages
    succeeds even when its session_id matches no sessions row.  save_message
    is therefore modelled as an unconditional insert, exactly as the Python
    INSERT behaves on such a connection.
  - Python str values handled character-wise (the SSE line protocol of
    LLMClient.chat_stream) are modelled as `List Char`; str values that are
    only stored, compared or concatenated are modelled as `String`.
  - json.loads of a backend frame is abstracted as a `decode` parameter
    returning `Option Frame` (`none` models json.JSONDecodeError).
  - Python evaluates the iterable expression of an `async for` when the
    loop starts, binding the call's keyword arguments against the callee's
    parameters; an unexpected keyword raises TypeError at that point.  The
    chat_stream call site of ChatService.process_chat_stream passes
    keyword arguments LLMClient.chat_stream does not declare, so on every
    execution that reaches the loop header the TypeError is raised inside
    the try block and the except handler yields one error event; the frame
    loop body below it is unreachable.  process_chat_stream models this:
    the binding step (bind_kwargs) guards the loop, and the loop arm is
    kept as the code the source would run were the binding to succeed.
-/

namespace MidmBackend

/-- settings.MAX_CONTEXT_MESSAGES (src/config.py line 9, default "10"). -/
def MAX_CONTEXT_MESSAGES : Nat := 10

/-- settings.DEFAULT_TOP_K (src/config.py line 21, default "3"). -/
def DEFAULT_TOP_K : Nat := 3

/-- settings.MIN_SIMILARITY_SCORE (src/config.py line 22, default "0.7"). -/
def MIN_SIMILARITY_SCORE : ℚ := 7 / 10

/-- A row of the `sessions` table (src/models/database.py lines 24-29). -/
structure SessionRow where
  session_id : String
  created_at : Nat
  last_accessed : Nat
  metadata : String
deriving DecidableEq

/-- A row of the `messages` table (src/models/database.py lines 31-39).
token_usage holds the json.dumps text, or none for SQL NULL. -/
structure MessageRow where
  message_id : Nat
  session_id : String
  role : String
  content : String
  created_at : Nat
  token_usage : Option String
deriving DecidableEq

/-- The persistent state reachable from the orchestration core: the
`sessions` and `messages` tables plus the abstracted uuid/clock sources. -/
structure Store where
  sessions : List SessionRow
  messages : List MessageRow
  now : Nat
  next_uuid : Nat
deriving DecidableEq

/-- Well-formedness of a store as produced by the embedding itself:
row timestamps are below the clock and strictly increase along the
insertion order of `messages` (each save_message stamps `now` and then
advances the clock). -/
def Store.WF (s : Store) : Prop :=
  (∀ m ∈ s.messages, m.created_at < s.now) ∧
    s.messages.Pairwise (fun a b => a.created_at < b.created_at)

/-- SessionService._session_exists (src/services/session_service.py lines
149-153): SELECT 1 FROM sessions WHERE session_id = ?. -/
def session_exists (s : Store) (session_id : String) : Bool :=
  s.sessions.any (fun r => decide (r.session_id = session_id))

/-- SessionService.get_session (src/services/session_service.py lines
36-57): returns the row if present and refreshes its last_accessed to now;
returns none (and leaves the store untouched) when the id is absent. -/
def get_session (s : Store) (session_id : String) : Option SessionRow × Store :=
  match s.sessions.find? (fun r => decide (r.session_id = session_id)) with
  | none => (none, s)
  | some r =>
      (some { r with last_accessed := s.now },
       { s with sessions := s.sessions.map fun q =>
          if q.session_id = session_id then { q with last_accessed := s.now } else q })

/-- ChatService.save_message (src/services/chat_service.py lines 14-48):
INSERT INTO messages, unconditionally.  The connection has sqlite foreign
key enforcement off (no PRAGMA foreign_keys=ON anywhere in the repository),
so the insert succeeds whether or not the session exists. -/
def save_message (s : Store) (session_id role content : String)
    (token_usage : Option String) : MessageRow × Store :=
  let row : MessageRow :=
    { message_id := s.next_uuid, session_id := session_id, role := role,
      content := content, created_at := s.now, token_usage := token_usage }
  (row, { s with messages := s.messages ++ [row],
                 now := s.now + 1, next_uuid := s.next_uuid + 1 })

/-- SessionService.get_session_messages (src/services/session_service.py
lines 73-106): None when the session is absent; otherwise the session's
messages in created_at-descending order (reverse of insertion order for a
well-formed store), LIMITed when `limit` is supplied.  Python's `if limit:`
treats a limit of 0 as no limit. -/
def get_session_messages (s : Store) (session_id : String) (limit : Option Nat) :
    Option (List MessageRow) :=
  if session_exists s session_id then
    let rows := (s.messages.filter (fun m => decide (m.session_id = session_id))).reverse
    some (match limit with
          | some n => if n = 0 then rows else rows.take n
          | none => rows)
  else none

/-- The role/content pair dicts fed to the LLM as chat context. -/
structure ContextMsg where
  role : String
  content : String
deriving DecidableEq

/-- Projection used by get_recent_messages_for_context (lines 119-123). -/
def toContextMsg (m : MessageRow) : ContextMsg :=
  { role := m.role, content := m.content }

/-- SessionService.get_recent_messages_for_context
(src/services/session_service.py lines 108-125): defaults the limit to
MAX_CONTEXT_MESSAGES, maps an absent session or an empty history alike to
[], otherwise reverses the newest-first rows back to chronological order
and keeps only role and content. -/
def get_recent_messages_for_context (s : Store) (session_id : String)
    (limit : Option Nat) : List ContextMsg :=
  let lim := limit.getD MAX_CONTEXT_MESSAGES
  match get_session_messages s session_id (some lim) with
  | none => []
  | some msgs => if msgs = [] then [] else msgs.reverse.map toContextMsg

/-- The fixed system message inserted by ChatService
(src/services/chat_service.py lines 137-142 and 69-74). -/
def system_preamble : ContextMsg :=
  { role := "system", content := "Mi:dm(믿:음)은 KT에서 개발한 AI 기반 어시스턴트이다." }

/-- ChatService lines 137-142: context_messages.insert(0, system_message)
when no message of the window has role "system". -/
def add_system_preamble (ctx : List ContextMsg) : List ContextMsg :=
  if ctx.any (fun m => decide (m.role = "system")) then ctx
  else system_preamble :: ctx

/-- The context window handed to generation by ChatService: the recent
window of the session combined with the conditional system preamble. -/
def context_window (s : Store) (session_id : String) : List ContextMsg :=
  add_system_preamble (get_recent_messages_for_context s session_id none)

/-! ### Retrieval augmentation (vector_service.py / rag_service.py) -/

/-- The metadata dict stored with an indexed chunk, as read by
RAGService.prepare_context (rag_service.py lines 52-53): both keys are
optional, with defaults "Unknown Document" and "". -/
structure RawMeta where
  document_title : Option String
  document_id : Option String
deriving DecidableEq

/-- One entry of the chroma query result as consumed by
VectorService.search_similar (vector_service.py lines 61-69): parallel
documents/distances/metadatas lists modelled as one list of triples.
The index returns its n_results nearest chunks in cosine-distance
ascending order; that ordering is a hypothesis of the theorems. -/
structure RawHit where
  document : String
  distance : ℚ
  metadata : RawMeta
deriving DecidableEq

/-- A record of the context metadata list built by
RAGService.prepare_context (rag_service.py lines 56-61). -/
structure CtxMeta where
  document_id : String
  document_title : String
  chunk_content : String
  similarity_score : ℚ
deriving DecidableEq

/-- VectorService.search_similar (src/services/vector_service.py lines
49-84) after the chroma query: converts each cosine distance to a
similarity (1 - distance, line 72), keeps the hits whose similarity is at
least settings.MIN_SIMILARITY_SCORE (lines 75-78), returns ([], [], [])
when nothing survives (lines 80-81), and otherwise unzips the surviving
triples (lines 83-84). -/
def search_similar (hits : List RawHit) : List String × List ℚ × List RawMeta :=
  let scored : List (String × ℚ × RawMeta) :=
    hits.map fun h => (h.document, 1 - h.distance, h.metadata)
  let filtered := scored.filter fun t => decide (MIN_SIMILARITY_SCORE ≤ t.2.1)
  if filtered = [] then ([], [], [])
  else (filtered.map (fun t => t.1), filtered.map (fun t => t.2.1),
        filtered.map (fun t => t.2.2))

/-- RAGService.prepare_context (src/services/rag_service.py lines 34-63):
takes the search_similar output (search_relevant_documents only forwards
it, lines 11-32), returns ([], []) when no documents survived, and
otherwise formats each passage as "[<title>]\n<chunk>" with the parallel
metadata records. -/
def prepare_context (hits : List RawHit) : List String × List CtxMeta :=
  let r := search_similar hits
  let documents := r.1
  let similarities := r.2.1
  let metadatas := r.2.2
  if documents = [] then ([], [])
  else
    let rows := documents.zip (similarities.zip metadatas)
    (rows.map fun t =>
        "[" ++ t.2.2.document_title.getD "Unknown Document" ++ "]\n" ++ t.1,
     rows.map fun t =>
        { document_id := t.2.2.document_id.getD ""
          document_title := t.2.2.document_title.getD "Unknown Document"
          chunk_content := t.1
          similarity_score := t.2.1 })

/-! ### LLMClient (src/services/llm_client.py) -/

/-- A decoded backend stream frame, classified the way
ChatService.process_chat_stream reads the "type" field: "chunk" frames
carry chunk.get("content", ""), "complete" frames carry the optional
full_response field, "error" frames carry their message, and any other
decoded object is ignored by the loop. -/
inductive Frame where
  | chunk (content : String)
  | complete (full_response : Option String)
  | error (message : String)
  | other
deriving DecidableEq

/-- A Python str as its sequence of code points (used for the SSE line
handling of LLMClient.chat_stream, which slices and compares by
character). -/
abbrev PyStr := List Char

/-- Python `not line.strip()` (llm_client.py line 67): true iff every
character of the line is whitespace. -/
def stripped_blank (line : PyStr) : Bool :=
  line.all Char.isWhitespace

/-- Python `line.startswith("data: ")` (llm_client.py line 70). -/
def starts_with_data (line : PyStr) : Bool :=
  decide (line.take 6 = "data: ".toList)

/-- Python `line[6:]` (llm_client.py line 71). -/
def after_data (line : PyStr) : PyStr :=
  line.drop 6

/-- The literal end-of-stream sentinel payload (llm_client.py line 73). -/
def done_sentinel : PyStr := "[DONE]".toList

/-- A line whose data payload is the [DONE] sentinel. -/
def is_done_line (line : PyStr) : Bool :=
  starts_with_data line && decide (after_data line = done_sentinel)

/-- LLMClient.chat_stream line loop (src/services/llm_client.py lines
66-80): skip blank lines, keep only "data: "-prefixed lines, stop at the
[DONE] sentinel, decode each payload with json.loads (`decode`; none
models json.JSONDecodeError) and yield the decoded frames in order. -/
def chat_stream_frames (decode : PyStr → Option Frame) : List PyStr → List Frame
  | [] => []
  | line :: rest =>
    if stripped_blank line then chat_stream_frames decode rest
    else if starts_with_data line then
      if after_data line = done_sentinel then []
      else
        match decode (after_data line) with
        | some f => f :: chat_stream_frames decode rest
        | none => chat_stream_frames decode rest
    else chat_stream_frames decode rest

/-- Parameter names of LLMClient.chat_completion besides self
(src/services/llm_client.py lines 20-26). -/
def chat_completion_params : List String :=
  ["messages", "max_new_tokens", "temperature", "do_sample"]

/-- Parameter names of LLMClient.chat_stream besides self
(src/services/llm_client.py lines 43-49). -/
def chat_stream_params : List String :=
  ["messages", "max_new_tokens", "temperature", "do_sample"]

/-- Keys of the JSON body both LLMClient.chat_completion and
LLMClient.chat_stream send to the backend (llm_client.py lines 28-33 and
51-56): the payload dict has exactly these keys, so nothing else ever
reaches the backend request. -/
def llm_request_payload_keys : List String :=
  ["messages", "max_new_tokens", "temperature", "do_sample"]

/-- Keyword-argument names ChatService passes at its llm_client call sites
(src/services/chat_service.py lines 92-99 for chat_completion and lines
169-176 for chat_stream). -/
def chat_service_llm_call_kwargs : List String :=
  ["messages", "max_new_tokens", "temperature", "do_sample", "context", "use_rag_prompt"]

deriving instance DecidableEq for Except

/-- Python keyword binding at a call site: binding fails with TypeError as
soon as some keyword argument names no parameter of the callee. -/
def bind_kwargs (fname : String) (params kwargs : List String) :
    Except String Unit :=
  match kwargs.find? (fun k => !(params.contains k)) with
  | some k => Except.error ("TypeError: " ++ fname ++
      " got an unexpected keyword argument " ++ k)
  | none => Except.ok ()

/-- The message of the TypeError the chat_stream call site raises on every
execution: the async-for iterable at chat_service.py lines 169-176 passes
context= and use_rag_prompt=, which LLMClient.chat_stream (llm_client.py
lines 43-49) does not declare.  str(e) of that exception becomes the error
event message in the except handler at chat_service.py lines 210-215. -/
def chat_stream_type_error : String :=
  match bind_kwargs "chat_stream" chat_stream_params chat_service_llm_call_kwargs with
  | Except.error m => m
  | Except.ok _ => ""

/-! ### ChatService.process_chat_stream (src/services/chat_service.py) -/

/-- A stream event yielded to the caller, as built at chat_service.py lines
164-167 (start), 182-186 (token), 193-197 (complete) and 199-200 / 211-215
(error, the backend frame or exception text). -/
inductive Event where
  | start
  | token (content : String) (token_count : Nat)
  | complete (total_tokens : Nat) (rag_context : Option (List CtxMeta))
  | error (message : String)
deriving DecidableEq

/-- Lines 189-191: final_response = chunk.get("full_response",
full_response); if final_response and final_response != full_response:
full_response = final_response. -/
def reconcile (full_response : String) (frame_full : Option String) : String :=
  match frame_full with
  | some fin => if fin ≠ "" ∧ fin ≠ full_response then fin else full_response
  | none => full_response

/-- Result of the `async for` loop of process_chat_stream (lines 169-201):
the events yielded inside the loop, the accumulated full_response, the
token counter, and whether the error branch `return`ed (which skips the
post-loop persistence). -/
structure LoopOut where
  events : List Event
  full_response : String
  token_count : Nat
  early : Bool
deriving DecidableEq

/-- The loop body of process_chat_stream (src/services/chat_service.py
lines 169-201), one step per backend frame: a chunk frame appends its
content to full_response, bumps the counter and yields a token event; a
complete frame reconciles full_response and yields a complete event whose
rag_context field repeats the prepared metadata (lines 193-197), after
which the loop keeps consuming frames; an error frame is yielded as-is and
the generator returns; any other frame is ignored. -/
def streamLoop (ragCtx : Option (List CtxMeta)) :
    List Frame → String → Nat → LoopOut
  | [], acc, cnt => { events := [], full_response := acc, token_count := cnt, early := false }
  | Frame.chunk c :: rest, acc, cnt =>
      let o := streamLoop ragCtx rest (acc ++ c) (cnt + 1)
      { o with events := Event.token c (cnt + 1) :: o.events }
  | Frame.complete fr :: rest, acc, cnt =>
      let o := streamLoop ragCtx rest (reconcile acc fr) cnt
      { o with events := Event.complete cnt ragCtx :: o.events }
  | Frame.error m :: _, acc, cnt =>
      { events := [Event.error m], full_response := acc, token_count := cnt, early := true }
  | Frame.other :: rest, acc, cnt => streamLoop ragCtx rest acc cnt

/-- Outcome of one process_chat_stream invocation: either the exception
raised before any yield (with the store at that moment), or the yielded
event sequence together with the final store. -/
inductive StreamResult where
  | raised (message : String) (store : Store)
  | finished (events : List Event) (store : Store)
deriving DecidableEq

/-- Events visible to the caller: none when the generator raised before
its first yield. -/
def StreamResult.events : StreamResult → List Event
  | StreamResult.raised _ _ => []
  | StreamResult.finished evs _ => evs

/-- The store after the invocation. -/
def StreamResult.store : StreamResult → Store
  | StreamResult.raised _ s => s
  | StreamResult.finished _ s => s

/-- ChatService.process_chat_stream (src/services/chat_service.py lines
117-215).  Raises "Session <id> not found" before any event or write when
the session is absent (lines 129-131); otherwise persists the inbound user
message (line 133) and assembles the context window (lines 135-142,
modelled by context_window; it only feeds the backend call and influences
neither the event stream nor the store).  Inside the try block the start
event is yielded (lines 164-167) and then the async-for iterable
llm_client.chat_stream(..., context=..., use_rag_prompt=...) is evaluated
(lines 169-176): its keyword binding fails with TypeError, the except
handler (lines 210-215) yields one error event carrying str(e), and the
generator ends — so every run on an existing session emits exactly start
then that error event, and the post-loop assistant persistence (lines
203-208) is never reached.  The Except.ok arm transcribes the loop the
source would run were the binding to succeed (`frames` being the frames
the backend stream would deliver); with the call kwargs as written it is
unreachable.  `use_rag`/`rag_metadata` carry the prepared
rag_service.prepare_context result (lines 151-158, evaluated before the
try block). -/
def process_chat_stream (s : Store) (session_id user_message : String)
    (use_rag : Bool) (rag_metadata : List CtxMeta) (frames : List Frame) :
    StreamResult :=
  match get_session s session_id with
  | (none, s0) => StreamResult.raised ("Session " ++ session_id ++ " not found") s0
  | (some _, s0) =>
    let s1 := (save_message s0 session_id "user" user_message none).2
    match bind_kwargs "chat_stream" chat_stream_params chat_service_llm_call_kwargs with
    | Except.error e => StreamResult.finished [Event.start, Event.error e] s1
    | Except.ok _ =>
      let ragCtx := if use_rag && !(rag_metadata.isEmpty) then some rag_metadata else none
      let o := streamLoop ragCtx frames "" 0
      let events := Event.start :: o.events
      if o.early then StreamResult.finished events s1
      else if o.full_response = "" then StreamResult.finished events s1
      else StreamResult.finished events
        (save_message s1 session_id "assistant" o.full_response none).2

/-! ### Concrete stores used by witnesses and counterexamples -/

/-- The empty store. -/
def store_empty : Store :=
  { sessions := [], messages := [], now := 0, next_uuid := 0 }

/-- A store holding one fresh session "s1" and no messages. -/
def store_s1 : Store :=
  { sessions := [{ session_id := "s1", created_at := 0, last_accessed := 0, metadata := "" }],
    messages := [], now := 1, next_uuid := 0 }

/-- A store holding session "s1" with ten persisted user messages. -/
def store_ten : Store :=
  { sessions := [{ session_id := "s1", created_at := 0, last_accessed := 0, metadata := "" }],
    messages := (List.range 10).map fun i =>
      { message_id := i, session_id := "s1", role := "user",
        content := "m", created_at := i + 1, token_usage := none },
    now := 11, next_uuid := 10 }

/-- Two indexed chunks as a similarity query could return them: distances
ascending, scores 9/10 and 1/2 against the 7/10 threshold. -/
def rag_hits_w : List RawHit :=
  [{ document := "alpha", distance := mkRat 1 10,
     metadata := { document_title := some "Doc", document_id := some "d1" } },
   { document := "beta", distance := mkRat 1 2,
     metadata := { document_title := none, document_id := none } }]

/-! ### Helper lemmas -/

/-- A store whose session lookup fails has no matching sessions row. -/
theorem find_none_of_not_session_exists {s : Store} {sid : String}
    (h : session_exists s sid = false) :
    s.sessions.find? (fun r => decide (r.session_id = sid)) = none := by
  rw [List.find?_eq_none]
  intro r hr
  have := (List.any_eq_false).mp h r hr
  simpa using this

/-- A store whose session lookup succeeds yields a concrete get_session
result: the found row with refreshed last_accessed, and the store with only
the sessions table touched. -/
theorem get_session_of_exists {s : Store} {sid : String}
    (h : session_exists s sid = true) :
    ∃ r, s.sessions.find? (fun r => decide (r.session_id = sid)) = some r ∧
      get_session s sid =
        (some { r with last_accessed := s.now },
         { s with sessions := s.sessions.map fun q =>
            if q.session_id = sid then { q with last_accessed := s.now } else q }) := by
  have hsome : (s.sessions.find? (fun r => decide (r.session_id = sid))).isSome = true := by
    rw [List.find?_isSome]
    obtain ⟨r, hr, hp⟩ := (List.any_eq_true).mp h
    exact ⟨r, hr, hp⟩
  obtain ⟨r, hfind⟩ := Option.isSome_iff_exists.mp hsome
  exact ⟨r, hfind, by simp [get_session, hfind]⟩

/-- A line of only whitespace cannot carry the "data: " marker. -/
theorem blank_not_data (line : PyStr) (h : stripped_blank line = true) :
    starts_with_data line = false := by
  by_contra hne
  have hs : line.take 6 = "data: ".toList := by
    have : starts_with_data line = true := by
      cases hx : starts_with_data line
      · exact absurd hx hne
      · rfl
    simpa [starts_with_data] using this
  have hmem : 'd' ∈ line := by
    refine List.take_subset 6 line ?_
    rw [hs]
    decide
  have hws := (List.all_eq_true.mp h) _ hmem
  simp at hws

/-- For an absent session, the generator raises before its first yield:
no events are visible and the store is untouched. -/
theorem process_raises_of_absent (s : Store) (sid msg : String) (use_rag : Bool)
    (meta : List CtxMeta) (frames : List Frame)
    (h : session_exists s sid = false) :
    process_chat_stream s sid msg use_rag meta frames
      = StreamResult.raised ("Session " ++ sid ++ " not found") s := by
  have hfind := find_none_of_not_session_exists h
  simp [process_chat_stream, get_session, hfind]

/-- For an existing session, every run of process_chat_stream — whatever
the backend would have streamed — emits exactly the start event and one
error event carrying the TypeError of the failed chat_stream call, and
appends exactly the inbound user message to the store. -/
theorem process_run_of_exists (s : Store) (sid msg : String) (use_rag : Bool)
    (meta : List CtxMeta) (frames : List Frame)
    (h : session_exists s sid = true) :
    (process_chat_stream s sid msg use_rag meta frames).events
      = [Event.start, Event.error chat_stream_type_error]
  ∧ (process_chat_stream s sid msg use_rag meta frames).store.messages
      = s.messages
        ++ [{ message_id := s.next_uuid, session_id := sid, role := "user",
              content := msg, created_at := s.now, token_usage := none }] := by
  obtain ⟨r, hfind, hget⟩ := get_session_of_exists h
  have hbind : bind_kwargs "chat_stream" chat_stream_params
      chat_service_llm_call_kwargs = Except.error chat_stream_type_error := rfl
  constructor <;>
    simp [process_chat_stream, hget, hbind, save_message,
      StreamResult.events, StreamResult.store]

/-! ### Claim theorems -/

/-- C1: evaluation of the code on the claim's scenario — for every
existing session and every backend stream of zero or more chunk frames
followed by a complete frame, the chat_stream call raises TypeError before
the backend stream is opened (its keyword binding fails on context=), so
the run emits start and then one error event carrying the TypeError
message — never a token or complete event — and persists only the inbound
user message, no assistant message. -/
theorem C1_stream_loop_unreachable (s : Store) (sid msg : String)
    (use_rag : Bool) (meta : List CtxMeta) (cs : List String) (fr : Option String)
    (h : session_exists s sid = true) :
    (process_chat_stream s sid msg use_rag meta
        (cs.map Frame.chunk ++ [Frame.complete fr])).events
      = [Event.start, Event.error chat_stream_type_error]
  ∧ (process_chat_stream s sid msg use_rag meta
        (cs.map Frame.chunk ++ [Frame.complete fr])).store.messages
      = s.messages
        ++ [{ message_id := s.next_uuid, session_id := sid, role := "user",
              content := msg, created_at := s.now, token_usage := none }] :=
  process_run_of_exists s sid msg use_rag meta
    (cs.map Frame.chunk ++ [Frame.complete fr]) h

/-- C1 witness: the spec scenario — session s1, user "hello", backend
would stream chunks "Hi" and " there" then a complete frame; the run
yields start then the TypeError error event and persists only the user
message. -/
theorem C1_witness :
    (process_chat_stream store_s1 "s1" "hello" false []
        [Frame.chunk "Hi", Frame.chunk " there", Frame.complete none]).events
      = [Event.start, Event.error
          "TypeError: chat_stream got an unexpected keyword argument context"]
  ∧ (process_chat_stream store_s1 "s1" "hello" false []
        [Frame.chunk "Hi", Frame.chunk " there", Frame.complete none]).store.messages
      = [{ message_id := 0, session_id := "s1", role := "user",
           content := "hello", created_at := 1, token_usage := none }] := by
  have h := C1_stream_loop_unreachable store_s1 "s1" "hello"
    false [] ["Hi", " there"] none (by decide)
  exact ⟨h.1, h.2⟩

/-- C3: evaluation of the code on the claim's scenario — for every
existing session, even when the backend would deliver chunk frames and
then an error frame, the chat_stream call raises TypeError before any
backend frame is received, so the run emits start and one error event
whose message is the TypeError text (not the backend frame's message, and
with no token events before it); no assistant message is persisted, and
only the inbound user message saved before streaming is in the store. -/
theorem C3_backend_error_never_received (s : Store) (sid msg : String)
    (use_rag : Bool) (meta : List CtxMeta) (cs : List String) (em : String)
    (rest : List Frame) (h : session_exists s sid = true) :
    (process_chat_stream s sid msg use_rag meta
        (cs.map Frame.chunk ++ Frame.error em :: rest)).events
      = [Event.start, Event.error chat_stream_type_error]
  ∧ (process_chat_stream s sid msg use_rag meta
        (cs.map Frame.chunk ++ Frame.error em :: rest)).store.messages
      = s.messages
        ++ [{ message_id := s.next_uuid, session_id := sid, role := "user",
              content := msg, created_at := s.now, token_usage := none }] :=
  process_run_of_exists s sid msg use_rag meta
    (cs.map Frame.chunk ++ Frame.error em :: rest) h

/-- C3 witness: the spec scenario — the backend would stream chunk "Hi"
then error "oom", but the emitted error carries the TypeError message and
no token event precedes it; only the user message is persisted. -/
theorem C3_witness :
    (process_chat_stream store_s1 "s1" "hello" false []
        [Frame.chunk "Hi", Frame.error "oom"]).events
      = [Event.start, Event.error
          "TypeError: chat_stream got an unexpected keyword argument context"]
  ∧ (process_chat_stream store_s1 "s1" "hello" false []
        [Frame.chunk "Hi", Frame.error "oom"]).store.messages
      = [{ message_id := 0, session_id := "s1", role := "user",
           content := "hello", created_at := 1, token_usage := none }] := by
  have h := C3_backend_error_never_received store_s1 "s1" "hello"
    false [] ["Hi"] "oom" [] (by decide)
  exact ⟨h.1, h.2⟩

/-- C4: for every session id absent from the store, process_chat_stream
raises "Session <id> not found" before yielding anything: zero events are
emitted and the whole store — in particular the messages table — is
unchanged. -/
theorem C4_unknown_session_no_side_effects (s : Store) (sid msg : String)
    (use_rag : Bool) (meta : List CtxMeta) (frames : List Frame)
    (h : session_exists s sid = false) :
    process_chat_stream s sid msg use_rag meta frames
      = StreamResult.raised ("Session " ++ sid ++ " not found") s
  ∧ (process_chat_stream s sid msg use_rag meta frames).events = []
  ∧ (process_chat_stream s sid msg use_rag meta frames).store = s := by
  have hr := process_raises_of_absent s sid msg use_rag meta frames h
  exact ⟨hr, by rw [hr]; rfl, by rw [hr]; rfl⟩

/-- C4 witness: the unknown session id "ghost" on the empty store. -/
theorem C4_witness :
    process_chat_stream store_empty "ghost" "hi" false [] [Frame.chunk "x"]
      = StreamResult.raised "Session ghost not found" store_empty :=
  (C4_unknown_session_no_side_effects store_empty "ghost" "hi" false []
    [Frame.chunk "x"] (by decide)).1

/-- C2: for every invocation of process_chat_stream and every sequence of
backend frames, a terminal event is never followed by another event: an
emitted error event is the last event of the stream, and a complete event
is never emitted at all — every run either raises before its first event
(absent session) or ends with the single error event of the failed
chat_stream call. -/
theorem C2_terminal_event_last (s : Store) (sid msg : String) (use_rag : Bool)
    (meta : List CtxMeta) (frames : List Frame) :
    (∀ pre m post,
      (process_chat_stream s sid msg use_rag meta frames).events
          = pre ++ Event.error m :: post → post = [])
  ∧ (∀ pre k c post,
      (process_chat_stream s sid msg use_rag meta frames).events
          ≠ pre ++ Event.complete k c :: post) := by
  have hsplit : (process_chat_stream s sid msg use_rag meta frames).events = []
      ∨ (process_chat_stream s sid msg use_rag meta frames).events
        = [Event.start, Event.error chat_stream_type_error] := by
    cases hex : session_exists s sid with
    | false =>
      left
      rw [process_raises_of_absent s sid msg use_rag meta frames hex]
      rfl
    | true =>
      right
      exact (process_run_of_exists s sid msg use_rag meta frames hex).1
  constructor
  · intro pre m post hev
    rcases hsplit with hE | hE <;> rw [hE] at hev
    · simp at hev
    · cases pre with
      | nil => simp at hev
      | cons p pre2 =>
        cases pre2 with
        | nil =>
          simp only [List.cons_append, List.nil_append, List.cons.injEq] at hev
          exact hev.2.2.symm
        | cons q pre3 => simp at hev
  · intro pre k c post hev
    rcases hsplit with hE | hE <;> rw [hE] at hev
    · simp at hev
    · cases pre with
      | nil => simp at hev
      | cons p pre2 =>
        cases pre2 with
        | nil => simp at hev
        | cons q pre3 => simp at hev

/-- C2 witness: in the concrete run on session s1, the error event is the
last event and nothing follows it. -/
theorem C2_witness :
    (process_chat_stream store_s1 "s1" "hello" false []
        [Frame.complete none, Frame.chunk "x"]).events
      = [Event.start, Event.error
          "TypeError: chat_stream got an unexpected keyword argument context"]
  ∧ ([] : List Event) = [] :=
  ⟨by decide,
   (C2_terminal_event_last store_s1 "s1" "hello" false []
      [Frame.complete none, Frame.chunk "x"]).1
     [Event.start]
     "TypeError: chat_stream got an unexpected keyword argument context"
     [] (by decide)⟩

/-- C5: evaluation of the code at its llm_client call sites — ChatService
passes keyword arguments context and use_rag_prompt that neither
LLMClient.chat_completion nor LLMClient.chat_stream declares, so Python
keyword binding raises TypeError, and the request payload the client would
build contains no context or retrieval-augmentation key at all: the
passages and flag can never reach the backend. -/
theorem C5_rag_flag_call_fails :
    bind_kwargs "chat_completion" chat_completion_params chat_service_llm_call_kwargs
      = Except.error
          "TypeError: chat_completion got an unexpected keyword argument context"
  ∧ bind_kwargs "chat_stream" chat_stream_params chat_service_llm_call_kwargs
      = Except.error
          "TypeError: chat_stream got an unexpected keyword argument context"
  ∧ "context" ∉ llm_request_payload_keys
  ∧ "use_rag_prompt" ∉ llm_request_payload_keys := by decide

/-- C6: evaluation of the code at the failing input — on a store without
any session, save_message still inserts the message row and reports
success, so a message row can reference a session that does not exist at
write time (sqlite foreign keys are declared but never enabled). -/
theorem C6_orphan_message_insert_succeeds :
    session_exists store_empty "ghost" = false
  ∧ (save_message store_empty "ghost" "user" "hi" none).2.messages
      = [{ message_id := 0, session_id := "ghost", role := "user",
           content := "hi", created_at := 0, token_usage := none }]
  ∧ (save_message store_empty "ghost" "user" "hi" none).1.session_id
      = "ghost" := by decide

/-- C9: for every backend line sequence, chat_stream yields exactly the
successfully decoded payloads of the "data: "-prefixed lines, in delivery
order, up to (and not past) the first [DONE] sentinel line; undecodable
payloads and non-data lines are skipped without failing. -/
theorem C9_chat_stream_frame_decoding (decode : PyStr → Option Frame)
    (lines : List PyStr) :
    chat_stream_frames decode lines
      = (lines.takeWhile fun l => !(is_done_line l)).filterMap
          fun l => if starts_with_data l then decode (after_data l) else none := by
  induction lines with
  | nil => rfl
  | cons line rest ih =>
    by_cases hb : stripped_blank line
    · have hd : starts_with_data line = false := blank_not_data line hb
      have hdone : is_done_line line = false := by simp [is_done_line, hd]
      simp [chat_stream_frames, hb, hd, hdone, List.takeWhile_cons, ih]
    · by_cases hs : starts_with_data line
      · by_cases hdn : after_data line = done_sentinel
        · have hdone : is_done_line line = true := by
            simp [is_done_line, hs, hdn]
          simp [chat_stream_frames, hb, hs, hdn, hdone, List.takeWhile_cons]
        · have hdone : is_done_line line = false := by
            simp [is_done_line, hdn]
          cases hdec : decode (after_data line) with
          | some f =>
            simp [chat_stream_frames, hb, hs, hdn, hdone, hdec,
              List.takeWhile_cons, ih]
          | none =>
            simp [chat_stream_frames, hb, hs, hdn, hdone, hdec,
              List.takeWhile_cons, ih]
      · have hdone : is_done_line line = false := by simp [is_done_line, hs]
        simp [chat_stream_frames, hb, hs, hdone, List.takeWhile_cons, ih]

/-- C10: the context-window query does not distinguish a missing session
from an existing session with no messages: both give the empty list, even
though the underlying history query get_session_messages returns none
(absent) for a missing session but some [] for an empty one. -/
theorem C10_missing_session_empty_window (s : Store) (sid : String) :
    (session_exists s sid = false →
        get_session_messages s sid (some MAX_CONTEXT_MESSAGES) = none
      ∧ get_recent_messages_for_context s sid none = [])
  ∧ (session_exists s sid = true →
      s.messages.filter (fun m => decide (m.session_id = sid)) = [] →
        get_session_messages s sid (some MAX_CONTEXT_MESSAGES) = some []
      ∧ get_recent_messages_for_context s sid none = []) := by
  constructor
  · intro hex
    constructor
    · simp [get_session_messages, hex]
    · simp [get_recent_messages_for_context, get_session_messages, hex]
  · intro hex hfilter
    constructor
    · simp [get_session_messages, hex, hfilter, MAX_CONTEXT_MESSAGES]
    · simp [get_recent_messages_for_context, get_session_messages, hex, hfilter,
        MAX_CONTEXT_MESSAGES]

/-- C10 witness: the empty store (no session "ghost") and the store with a
fresh empty session "s1" both yield the empty context window, with the
history query distinguishing them. -/
theorem C10_witness :
    (get_session_messages store_empty "ghost" (some MAX_CONTEXT_MESSAGES) = none
      ∧ get_recent_messages_for_context store_empty "ghost" none = [])
  ∧ (get_session_messages store_s1 "s1" (some MAX_CONTEXT_MESSAGES) = some []
      ∧ get_recent_messages_for_context store_s1 "s1" none = []) :=
  ⟨(C10_missing_session_empty_window store_empty "ghost").1 (by decide),
   (C10_missing_session_empty_window store_s1 "s1").2 (by decide) (by decide)⟩

/-- prepare_context in closed form: one threshold filter over the scored
hits, then the two parallel formatting maps. -/
theorem prepare_context_characterization (hits : List RawHit) :
    prepare_context hits
      = (((hits.map fun h => (h.document, 1 - h.distance, h.metadata)).filter
            fun t => decide (MIN_SIMILARITY_SCORE ≤ t.2.1)).map
           fun t => "[" ++ t.2.2.document_title.getD "Unknown Document"
              ++ "]\n" ++ t.1,
         ((hits.map fun h => (h.document, 1 - h.distance, h.metadata)).filter
            fun t => decide (MIN_SIMILARITY_SCORE ≤ t.2.1)).map
           fun t => { document_id := t.2.2.document_id.getD ""
                      document_title := t.2.2.document_title.getD "Unknown Document"
                      chunk_content := t.1
                      similarity_score := t.2.1 }) := by
  by_cases hf : ((hits.map fun h => (h.document, 1 - h.distance, h.metadata)).filter
      fun t => decide (MIN_SIMILARITY_SCORE ≤ t.2.1)) = []
  · simp [prepare_context, search_similar, hf]
  · simp [prepare_context, search_similar, hf, List.map_eq_nil_iff,
      List.zip_map', List.map_map, Function.comp]

/-- C7: for every similarity query whose raw index result is in
cosine-distance ascending order, prepare_context returns only passages
whose similarity score reaches MIN_SIMILARITY_SCORE, its metadata scores
are monotonically non-increasing, the passages and metadata stay parallel,
and when no chunk clears the threshold both outputs are empty — an
ordinary successful result. -/
theorem C7_threshold_and_ordering (hits : List RawHit)
    (hsorted : (hits.map RawHit.distance).Pairwise (· ≤ ·)) :
    (∀ m ∈ (prepare_context hits).2, MIN_SIMILARITY_SCORE ≤ m.similarity_score)
  ∧ ((prepare_context hits).2.map CtxMeta.similarity_score).Pairwise
      (fun a b => b ≤ a)
  ∧ (prepare_context hits).1.length = (prepare_context hits).2.length
  ∧ ((∀ hit ∈ hits, (1 : ℚ) - hit.distance < MIN_SIMILARITY_SCORE) →
      prepare_context hits = ([], [])) := by
  rw [prepare_context_characterization]
  refine ⟨?_, ?_, ?_, ?_⟩
  · intro m hm
    simp only [List.mem_map] at hm
    obtain ⟨t, ht, rfl⟩ := hm
    have := (List.mem_filter.mp ht).2
    simpa using this
  · rw [List.map_map, List.pairwise_map]
    have hsc : ((hits.map fun h => (h.document, 1 - h.distance, h.metadata)).filter
        fun t => decide (MIN_SIMILARITY_SCORE ≤ t.2.1)).Pairwise
          (fun a b => b.2.1 ≤ a.2.1) := by
      refine List.Pairwise.sublist (List.filter_sublist _) ?_
      rw [List.pairwise_map]
      have hd := List.pairwise_map.mp hsorted
      exact hd.imp fun hab => sub_le_sub_left hab 1
    exact hsc.imp fun hab => hab
  · simp
  · intro hall
    have hnil : ((hits.map fun h => (h.document, 1 - h.distance, h.metadata)).filter
        fun t => decide (MIN_SIMILARITY_SCORE ≤ t.2.1)) = [] := by
      rw [List.filter_eq_nil_iff]
      intro t ht
      simp only [List.mem_map] at ht
      obtain ⟨hit, hh, rfl⟩ := ht
      simpa using not_le.mpr (hall hit hh)
    simp [hnil]

/-- C7 witness: on two hits with scores 9/10 and 1/2, the surviving
metadata scores are non-increasing. -/
theorem C7_witness :
    ((prepare_context rag_hits_w).2.map CtxMeta.similarity_score).Pairwise
      (fun a b => b ≤ a) :=
  (C7_threshold_and_ordering rag_hits_w (by decide)).2.1

/-- C8 (amended): for every well-formed store and existing session, the
raw context window is at most MAX_CONTEXT_MESSAGES history messages — the
most recent ones, reversed back into chronological (created_at) order, a
suffix of the chronological session history — and the window handed to
generation is that raw window with the fixed system preamble prepended if
and only if no raw-window message has role system; the handed window can
therefore hold up to MAX_CONTEXT_MESSAGES + 1 messages, one more than the
configured maximum. -/
theorem C8_context_window_shape (s : Store) (sid : String) (hwf : Store.WF s)
    (h : session_exists s sid = true) :
    (get_recent_messages_for_context s sid none).length ≤ MAX_CONTEXT_MESSAGES
  ∧ get_recent_messages_for_context s sid none
      = ((s.messages.filter fun m => decide (m.session_id = sid)).map
          toContextMsg).drop
          ((s.messages.filter fun m => decide (m.session_id = sid)).length
            - MAX_CONTEXT_MESSAGES)
  ∧ (s.messages.filter fun m => decide (m.session_id = sid)).Pairwise
      (fun a b => a.created_at < b.created_at)
  ∧ (context_window s sid).length ≤ MAX_CONTEXT_MESSAGES + 1
  ∧ (((get_recent_messages_for_context s sid none).any fun m =>
        decide (m.role = "system")) = false →
      context_window s sid
        = system_preamble :: get_recent_messages_for_context s sid none)
  ∧ (((get_recent_messages_for_context s sid none).any fun m =>
        decide (m.role = "system")) = true →
      context_window s sid = get_recent_messages_for_context s sid none) := by
  have hraw : get_recent_messages_for_context s sid none
      = ((s.messages.filter fun m =>
          decide (m.session_id = sid)).reverse.take MAX_CONTEXT_MESSAGES).reverse.map
          toContextMsg := by
    by_cases h0 : ((s.messages.filter fun m =>
        decide (m.session_id = sid)).reverse.take MAX_CONTEXT_MESSAGES) = []
    · simp [get_recent_messages_for_context, get_session_messages, h, h0,
        MAX_CONTEXT_MESSAGES]
    · simp [get_recent_messages_for_context, get_session_messages, h, h0,
        MAX_CONTEXT_MESSAGES]
  have hlen : (get_recent_messages_for_context s sid none).length
      ≤ MAX_CONTEXT_MESSAGES := by
    rw [hraw]
    simp only [List.length_map, List.length_reverse, List.length_take]
    exact min_le_left _ _
  have hdrop : get_recent_messages_for_context s sid none
      = ((s.messages.filter fun m => decide (m.session_id = sid)).map
          toContextMsg).drop
          ((s.messages.filter fun m => decide (m.session_id = sid)).length
            - MAX_CONTEXT_MESSAGES) := by
    rw [hraw, List.reverse_take, List.length_reverse, List.reverse_reverse,
      List.map_drop]
  refine ⟨hlen, hdrop, ?_, ?_, ?_, ?_⟩
  · exact List.Pairwise.sublist (List.filter_sublist _) hwf.2
  · simp only [context_window, add_system_preamble]
    split
    · omega
    · simp only [List.length_cons]
      omega
  · intro hany
    simp [context_window, add_system_preamble, hany]
  · intro hany
    simp [context_window, add_system_preamble, hany]

/-- C8 witness: session s1 of the ten-message store gets a ten-message raw
window plus the preamble. -/
theorem C8_witness :
    (context_window store_ten "s1").length ≤ MAX_CONTEXT_MESSAGES + 1 :=
  (C8_context_window_shape store_ten "s1" ⟨by decide, by decide⟩ (by decide)).2.2.2.1

/-- C8 counterexample: the claim as stated is false — with ten non-system
history messages the window handed to generation holds eleven messages,
exceeding the configured maximum of ten. -/
theorem C8_counterexample :
    (context_window store_ten "s1").length = MAX_CONTEXT_MESSAGES + 1
  ∧ MAX_CONTEXT_MESSAGES < MAX_CONTEXT_MESSAGES + 1 := by decide

end MidmBackend
